import Mathlib

/-!
Shallow embedding of the FalcoTK/mangadex client library
(`src/method/Search.py`, `src/method/Manga.py`) and verification of the
frozen claims about it.

JSON payloads are modelled by the inductive `Json`; Python exceptions by
`PyErr`; an HTTP response by `HttpResponse`, whose `json?` field is the
parse result of the body (`none` = the body is not valid JSON).  Each
public operation of the library is embedded as an executable function from
its parameters and the server's response(s) to a `FetchResult`, recording
the raised-or-returned outcome, the list of URLs requested, and whether a
JSON parse of a response body was attempted.
-/

/-- JSON values, as decoded by `response.json()`.  Python `None` and JSON
`null` are identified as `Json.null`. -/
inductive Json where
  | null : Json
  | bool : Bool → Json
  | num : Int → Json
  | str : String → Json
  | arr : List Json → Json
  | obj : List (String × Json) → Json

/-- Python exception values that can arise in the embedded code.  The error
classes of the repository's `error` module are not under `src/`; their
arities here are modelled from the spec error taxonomy (section 7) and the
call sites in `src/method`: `ConnectionError(msg)`, `JSONError(msg)`,
`FetchErrorr(status, title, detail, id)` for the API-reported error raise
sites, and `FetchErrorr(msg)` for the catch-all raise sites. -/
inductive PyErr where
  | connectionError (msg : String)
  | jsonError (msg : String)
  | fetchErrorrFields (status title detail id : Json)
  | fetchErrorrMsg (msg : String)
  | keyError (key : String)
  | indexError
  | nameError (name : String)
  | typeError (msg : String)
  | attributeError (msg : String)
  | valueError (msg : String)
  | httpError (code : Nat)

/-- Error kind in the spec's taxonomy (section 7), used to classify which
exception class reaches the caller. -/
inductive ErrKind where
  | connection
  | payloadParse
  | apiReported
  | opFailed
  | pyInternal
deriving DecidableEq, Repr

/-- Classify a Python exception into the spec's error taxonomy:
`ConnectionError` is ConnectionFailure, `JSONError` is PayloadParseError,
the four-field `FetchErrorr` is ApiReportedError, the message-only
`FetchErrorr` is OperationFailed. -/
def PyErr.kind : PyErr → ErrKind
  | .connectionError _ => .connection
  | .jsonError _ => .payloadParse
  | .fetchErrorrFields _ _ _ _ => .apiReported
  | .fetchErrorrMsg _ => .opFailed
  | _ => .pyInternal

/-- Kind of the error of a fallible outcome, `none` on success. -/
def errKindOf {α : Type} : Except PyErr α → Option ErrKind
  | Except.error e => some e.kind
  | Except.ok _ => none

/-- Python repr of a simple value, used by str() of a multi-argument
exception (tuple repr of its args).  Only the scalar cases are relied on. -/
def Json.pyRepr : Json → String
  | .null => "None"
  | .bool true => "True"
  | .bool false => "False"
  | .num n => toString n
  | .str s => "\x27" ++ s ++ "\x27"
  | .arr _ => "[...]"
  | .obj _ => "\x7b...\x7d"

/-- Python str() of a value, as used by f-string interpolation.  Only the
scalar cases are relied on by the embedded code paths. -/
def Json.pyStr : Json → String
  | .null => "None"
  | .bool true => "True"
  | .bool false => "False"
  | .num n => toString n
  | .str s => s
  | .arr _ => "[...]"
  | .obj _ => "\x7b...\x7d"

/-- Python str() of an exception, used when a catch-all handler
interpolates the caught exception into a new message.  For the
four-argument `FetchErrorr`, default `Exception.__str__` prints the tuple
of the args. -/
def PyErr.pyStr : PyErr → String
  | .connectionError m => m
  | .jsonError m => m
  | .fetchErrorrFields s t d i =>
      "(" ++ s.pyRepr ++ ", " ++ t.pyRepr ++ ", " ++ d.pyRepr ++ ", " ++ i.pyRepr ++ ")"
  | .fetchErrorrMsg m => m
  | .keyError k => "\x27" ++ k ++ "\x27"
  | .indexError => "list index out of range"
  | .nameError n => "local variable \x27" ++ n ++ "\x27 referenced before assignment"
  | .typeError m => m
  | .attributeError m => m
  | .valueError m => m
  | .httpError c => "HTTP Error " ++ toString c

/-- Python `j[k]` subscript on a decoded JSON value: KeyError when the key
is missing from a dict, TypeError when the value is not a dict. -/
def Json.index (j : Json) (k : String) : Except PyErr Json :=
  match j with
  | .obj kvs =>
      match kvs.lookup k with
      | some v => Except.ok v
      | none => Except.error (PyErr.keyError k)
  | _ => Except.error (PyErr.typeError "object is not subscriptable")

/-- Python `j[i]` subscript with an integer index on a decoded JSON value:
IndexError when out of range, TypeError when the value is not a list. -/
def Json.indexNat (j : Json) (i : Nat) : Except PyErr Json :=
  match j with
  | .arr l =>
      match l.get? i with
      | some v => Except.ok v
      | none => Except.error PyErr.indexError
  | _ => Except.error (PyErr.typeError "object is not subscriptable")

/-- Python `j.get(k, d)` on a decoded JSON value: AttributeError when the
value is not a dict. -/
def Json.dictGet (j : Json) (k : String) (d : Json) : Except PyErr Json :=
  match j with
  | .obj kvs => Except.ok ((kvs.lookup k).getD d)
  | _ => Except.error (PyErr.attributeError "object has no attribute get")

/-- Python `j == s` for a string literal `s`: true exactly when `j` is that
string (no other JSON value compares equal to a str). -/
def Json.isStrEq (j : Json) (s : String) : Bool :=
  match j with
  | .str v => v == s
  | _ => false

/-- Python `j is None` for a decoded JSON value. -/
def Json.isNull : Json → Bool
  | .null => true
  | _ => false

/-- Python truthiness of a decoded JSON value. -/
def Json.pyTruthy : Json → Bool
  | .null => false
  | .bool b => b
  | .num n => n != 0
  | .str s => s != ""
  | .arr l => !l.isEmpty
  | .obj kvs => !kvs.isEmpty

/-- Python `for x in j`: lists iterate their elements, dicts their keys,
strings their characters; other values raise TypeError. -/
def Json.pyIter (j : Json) : Except PyErr (List Json) :=
  match j with
  | .arr l => Except.ok l
  | .obj kvs => Except.ok (kvs.map (fun kv => Json.str kv.fst))
  | .str s => Except.ok (s.toList.map (fun c => Json.str (String.singleton c)))
  | _ => Except.error (PyErr.typeError "object is not iterable")

/-- Python `k in j` membership test: key membership for dicts, element
equality for lists, substring for strings. -/
def Json.pyContains (j : Json) (k : String) : Except PyErr Bool :=
  match j with
  | .obj kvs => Except.ok (kvs.lookup k).isSome
  | .arr l => Except.ok (l.any (fun x => x.isStrEq k))
  | .str s => Except.ok ((s.splitOn k).length > 1)
  | _ => Except.error (PyErr.typeError "argument is not iterable")

/-- Uppercase hex digit. -/
def hexDigit (n : Nat) : Char :=
  if n < 10 then Char.ofNat (48 + n) else Char.ofNat (55 + n)

/-- Two-digit uppercase hex rendering of a byte. -/
def hexByte (b : UInt8) : String :=
  String.mk [hexDigit (b.toNat / 16), hexDigit (b.toNat % 16)]

/-- Percent-encoding of one character, per `urllib.parse.quote` with the
default `safe="/"`: ASCII alphanumerics and `_.-~/` pass through, every
other character is encoded byte by byte from its UTF-8 form. -/
def quoteChar (c : Char) : String :=
  if c.isAlphanum || c == '_' || c == '.' || c == '-' || c == '~' || c == '/' then
    String.singleton c
  else
    String.join (((String.singleton c).toUTF8.toList).map (fun b => "%" ++ hexByte b))

/-- `urllib.parse.quote` with default arguments, as imported by
`src/method/Search.py`. -/
def quote (s : String) : String :=
  String.join (s.toList.map quoteChar)

/-- An HTTP response as seen by the client: the status code and the parse
result of the body (`none` when the body is not valid JSON, in which case
`response.json()` raises ValueError). -/
structure HttpResponse where
  status_code : Nat
  json? : Option Json

/-- Outcome of one embedded public operation: the returned value or raised
exception, the URLs requested (in order), and whether any `response.json()`
parse was attempted. -/
structure FetchResult (α : Type) where
  result : Except PyErr α
  requested : List String
  jsonAttempted : Bool

/-- Sequential content-rating `if` chain of `Search.manga` (lines 74-81)
and `Search.RandomSearch` (lines 430-437): the four conditions are
mutually exclusive independent `if`s assigning `CntnRate`; for any other
input the variable is never assigned, so its later use raises
UnboundLocalError (a NameError). `none` models the unassigned case. -/
def cntnRate? (contentRating : String) : Option String :=
  if contentRating == "all" then
    some "contentRating[]=safe&contentRating[]=suggestive&contentRating[]=erotica"
  else if contentRating == "safe" then some "contentRating[]=safe"
  else if contentRating == "suggestive" then some "contentRating[]=suggestive"
  else if contentRating == "erotica" then some "contentRating[]=erotica"
  else none

/-- Top-level `result == "error"` check shared verbatim by `Search.manga`
(lines 103-112), `Search.author`, `Search.GroupSearch`, `Search.RandomSearch`
and `Search.AdvanceSearch` (lines 648-655): on an error envelope it raises
`FetchErrorr(status, title, detail, id)` built from the first entry of
`errors` via `.get` with the literal defaults. -/
def apiErrorCheck (data : Json) : Except PyErr Unit := do
  let res ← data.index "result"
  if res.isStrEq "error" then
    let errs ← data.index "errors"
    let det ← errs.indexNat 0
    let s ← det.dictGet "status" (Json.str "Unknown")
    let t ← det.dictGet "title" (Json.str "Unknown Error")
    let d ← det.dictGet "detail" (Json.str "No details provided")
    let i ← det.dictGet "id" (Json.str "Unknown ID")
    Except.error (PyErr.fetchErrorrFields s t d i)
  else
    Except.ok ()

/-- Python `next((rel for rel in rels if rel["type"] == ty), None)` of the
manga shapers (`Search.manga` lines 117-124, `Search.RandomSearch` lines
465-472, `Search.AdvanceSearch` lines 660-667): scans the relationships in
array order, subscripting `rel["type"]`, and stops at the first match. -/
def firstRelOfType (ty : String) : List Json → Except PyErr (Option Json)
  | [] => Except.ok none
  | rel :: rest => do
      let t ← rel.index "type"
      if t.isStrEq ty then Except.ok (some rel) else firstRelOfType ty rest

/-- List comprehension `[Alt["en"] for Alt in altTitles if "en" in Alt]`
of the manga shapers. -/
def altTitlesOf : List Json → Except PyErr (List Json)
  | [] => Except.ok []
  | alt :: rest => do
      let b ← alt.pyContains "en"
      if b then do
        let v ← alt.index "en"
        let vs ← altTitlesOf rest
        Except.ok (v :: vs)
      else
        altTitlesOf rest

/-- List comprehension `[tag["attributes"]["name"]["en"] for tag in tags]`
of the manga shapers. -/
def tagsOf : List Json → Except PyErr (List Json)
  | [] => Except.ok []
  | tag :: rest => do
      let a ← tag.index "attributes"
      let n ← a.index "name"
      let v ← n.index "en"
      let vs ← tagsOf rest
      Except.ok (v :: vs)

/-- Cover id of a manga item: `cover_art["attributes"]["fileName"]` when a
`cover_art` relationship was found, else the literal `"default_cover.jpg"`
(`Search.manga` lines 125-129). -/
def coverIdOf (cover_art : Option Json) : Except PyErr Json :=
  match cover_art with
  | some ca => do
      let a ← ca.index "attributes"
      a.index "fileName"
  | none => Except.ok (Json.str "default_cover.jpg")

/-- Body of the per-item `MangaInfo` dict literal shared verbatim by
`Search.manga` (lines 115-158) and `Search.AdvanceSearch` (lines 658-701):
`id`, `relationships` and `attributes` are read by subscript; `title` and
`description` default only their `"en"` sub-key; `altTitles`, `year`,
`tags`, `status` are read by direct subscript (KeyError when absent);
cover URLs use the truthiness of the cover id. -/
def shapeMangaItem (manga : Json) : Except PyErr Json := do
  let manga_id ← manga.index "id"
  let rels ← manga.index "relationships"
  let relList ← rels.pyIter
  let cover_art ← firstRelOfType "cover_art" relList
  let cover_id ← coverIdOf cover_art
  let attrs ← manga.index "attributes"
  let titleJ ← attrs.index "title"
  let title ← titleJ.dictGet "en" (Json.str "Unknown Title")
  let altJ ← attrs.index "altTitles"
  let altList ← altJ.pyIter
  let alts ← altTitlesOf altList
  let descJ ← attrs.index "description"
  let desc ← descJ.dictGet "en" (Json.str "")
  let year ← attrs.index "year"
  let tagsJ ← attrs.index "tags"
  let tagList ← tagsJ.pyIter
  let tags ← tagsOf tagList
  let status ← attrs.index "status"
  Except.ok (Json.obj
    [("id", manga_id), ("title", title), ("altTitles", Json.arr alts),
     ("description", desc), ("year", year), ("tags", Json.arr tags),
     ("status", status),
     ("CoverSmall",
       if cover_id.pyTruthy then
         Json.str ("https://mangadex.org/covers/" ++ manga_id.pyStr ++ "/"
           ++ cover_id.pyStr ++ ".256.jpg")
       else Json.null),
     ("CoverLarge",
       if cover_id.pyTruthy then
         Json.str ("https://mangadex.org/covers/" ++ manga_id.pyStr ++ "/"
           ++ cover_id.pyStr)
       else Json.null)])

/-- The result-collection loop of `Search.manga` (lines 114-158) and
`Search.AdvanceSearch` (lines 657-701): `MangaList` is initialised to `[]`
and never appended to, while `MangaInfo` is rebound on every iteration;
the loop state is the pair `(MangaList, MangaInfo)`. -/
def mangaLoop : List Json → List Json → Option Json → Except PyErr (List Json × Option Json)
  | [], ml, acc => Except.ok (ml, acc)
  | m :: rest, ml, _acc => do
      let info ← shapeMangaItem m
      mangaLoop rest ml (some info)

/-- Post-parse phase shared by `Search.manga` and `Search.AdvanceSearch`:
error-envelope check, iterate `data["data"]` through `mangaLoop`, then
`return MangaInfo` — which raises NameError (UnboundLocalError) when the
loop body never ran. -/
def mangaListShape (data : Json) : Except PyErr Json := do
  apiErrorCheck data
  let dArr ← data.index "data"
  let items ← dArr.pyIter
  let st ← mangaLoop items [] none
  match st.2 with
  | some info => Except.ok info
  | none => Except.error (PyErr.nameError "MangaInfo")

/-- Shaping of every item of a list, in order, failing at the first item
that fails; reference recursion used to state properties of `mangaLoop`. -/
def shapeAll : List Json → Except PyErr (List Json)
  | [] => Except.ok []
  | m :: rest => do
      let i ← shapeMangaItem m
      let tail ← shapeAll rest
      Except.ok (i :: tail)

/-- Last element of a list, or the fallback when the list is empty; models
the final value of a variable rebound on every loop iteration. -/
def lastOr {α : Type} : List α → Option α → Option α
  | [], acc => acc
  | x :: xs, _ => lastOr xs (some x)

/-- Catch-all wrapper of `Search.manga` line 165 and `Search.RandomSearch`
line 510: `except Exception as e: raise FetchErrorr(f"An error occurred
while fetching manga: ...")`. -/
def wrapSearchManga (e : PyErr) : PyErr :=
  PyErr.fetchErrorrMsg ("An error occurred while fetching manga: " ++ e.pyStr)

/-- URL built by `Search.manga` line 90. -/
def searchMangaUrl (title : String) (ms : Int) (cr : String) : String :=
  "https://api.mangadex.org/manga?title=%20" ++ quote title ++ "&limit=" ++ toString ms
    ++ "&" ++ cr ++ "&includes[]=cover_art&order[relevance]=desc"

/-- Embedding of `Search.manga` (`src/method/Search.py` lines 16-165),
from its parameters and the server's response to the outcome seen by the
caller.  The whole body runs under `except Exception`, so every raised
exception is re-raised as the catch-all `FetchErrorr` message. -/
def searchMangaRun (title contentRating : String) (maxSearch : Option Int)
    (resp : HttpResponse) : FetchResult Json :=
  match cntnRate? contentRating with
  | none => ⟨Except.error (wrapSearchManga (PyErr.nameError "CntnRate")), [], false⟩
  | some cr =>
    let ms := maxSearch.getD 5
    let url := searchMangaUrl title ms cr
    if resp.status_code != 200 then
      ⟨Except.error (wrapSearchManga (PyErr.connectionError
          ("Failed to fetch manga. Status code: " ++ toString resp.status_code))),
        [url], false⟩
    else
      match resp.json? with
      | none => ⟨Except.error (wrapSearchManga (PyErr.valueError "Expecting value")), [url], true⟩
      | some data => ⟨(mangaListShape data).mapError wrapSearchManga, [url], true⟩

/-- URL built by `Search.RandomSearch` line 440. -/
def randomUrl (cr : String) : String :=
  "https://api.mangadex.org/manga/random?" ++ cr
    ++ "&includes[]=artist&includes[]=author&includes[]=cover_art"

/-- Post-parse phase of `Search.RandomSearch` (lines 451-503): the single
object `data["data"]` is shaped with `.get` defaults for `altTitles`,
`year`, `tags` and `status`, but direct subscripts for `title["en"]` and
`description`. -/
def randomShape (data : Json) : Except PyErr Json := do
  apiErrorCheck data
  let manga ← data.index "data"
  let mangaID ← manga.index "id"
  let rels ← manga.index "relationships"
  let relList ← rels.pyIter
  let cover_art ← firstRelOfType "cover_art" relList
  let cover_id ← coverIdOf cover_art
  let attrs ← manga.index "attributes"
  let titleJ ← attrs.index "title"
  let title ← titleJ.index "en"
  let altJ ← attrs.dictGet "altTitles" (Json.arr [])
  let altList ← altJ.pyIter
  let alts ← altTitlesOf altList
  let descJ ← attrs.index "description"
  let desc ← descJ.dictGet "en" (Json.str "")
  let year ← attrs.dictGet "year" Json.null
  let tagsJ ← attrs.dictGet "tags" (Json.arr [])
  let tagList ← tagsJ.pyIter
  let tags ← tagsOf tagList
  let status ← attrs.dictGet "status" (Json.str "Unknown")
  Except.ok (Json.obj
    [("id", mangaID), ("title", title), ("altTitles", Json.arr alts),
     ("description", desc), ("year", year), ("tags", Json.arr tags),
     ("status", status),
     ("CoverSmall",
       if cover_id.pyTruthy then
         Json.str ("https://mangadex.org/covers/" ++ mangaID.pyStr ++ "/"
           ++ cover_id.pyStr ++ ".256.jpg")
       else Json.null),
     ("CoverLarge",
       if cover_id.pyTruthy then
         Json.str ("https://mangadex.org/covers/" ++ mangaID.pyStr ++ "/"
           ++ cover_id.pyStr)
       else Json.null)])

/-- Embedding of `Search.RandomSearch` (`src/method/Search.py` lines
384-510).  The connection-error message reproduces the source's "Radnom"
typo at line 448. -/
def randomSearchRun (contentRating : String) (resp : HttpResponse) : FetchResult Json :=
  match cntnRate? contentRating with
  | none => ⟨Except.error (wrapSearchManga (PyErr.nameError "CntnRate")), [], false⟩
  | some cr =>
    let url := randomUrl cr
    if resp.status_code != 200 then
      ⟨Except.error (wrapSearchManga (PyErr.connectionError
          ("Failed to fetch Radnom Manga. Status code: " ++ toString resp.status_code))),
        [url], false⟩
    else
      match resp.json? with
      | none => ⟨Except.error (wrapSearchManga (PyErr.valueError "Expecting value")), [url], true⟩
      | some data => ⟨(randomShape data).mapError wrapSearchManga, [url], true⟩

/-- Catch-all wrapper of `manga.FetchChapterIMG` lines 66-70 and
`manga.FetchChapter` lines 159-163. -/
def wrapChapter (e : PyErr) : PyErr :=
  PyErr.fetchErrorrMsg ("An error occurred while fetching Manga Payload: " ++ e.pyStr)

/-- URL built by `manga.FetchChapterIMG` line 42. -/
def chapterIMGUrl (chapterID : String) : String :=
  "https://api.mangadex.org/at-home/server/" ++ chapterID

/-- Image-URL construction of `manga.FetchChapterIMG` (lines 52-62):
`BaseUrl = data.get("baseUrl", "")`, `CHHash` and `CHData` from
`data.get("chapter", {})`, then one URL `{BaseUrl}/data/{CHHash}/{image}`
per page filename, in server order. -/
def chapterImageUrlsOf (data : Json) : Except PyErr (List String) := do
  let b ← data.dictGet "baseUrl" (Json.str "")
  let ch ← data.dictGet "chapter" (Json.obj [])
  let h ← ch.dictGet "hash" (Json.str "")
  let d ← ch.dictGet "data" (Json.arr [])
  let items ← d.pyIter
  Except.ok (items.map (fun img => b.pyStr ++ "/data/" ++ h.pyStr ++ "/" ++ img.pyStr))

/-- Embedding of `manga.FetchChapterIMG` (`src/method/Manga.py` lines
18-70).  The inner `except ValueError` turns a JSON parse failure into
`JSONError("Failed to parse Manga Payload.")`; the outer `except
Exception` then re-raises everything as the catch-all `FetchErrorr`. -/
def fetchChapterIMGRun (chapterID : String) (resp : HttpResponse) : FetchResult (List String) :=
  let url := chapterIMGUrl chapterID
  if resp.status_code != 200 then
    ⟨Except.error (wrapChapter (PyErr.connectionError
        ("Failed to fetch Manga Payload. Status code: " ++ toString resp.status_code))),
      [url], false⟩
  else
    match resp.json? with
    | none =>
        ⟨Except.error (wrapChapter (PyErr.jsonError "Failed to parse Manga Payload.")),
          [url], true⟩
    | some data => ⟨(chapterImageUrlsOf data).mapError wrapChapter, [url], true⟩

/-- Scanlation-group scan of `manga.FetchChapter` (lines 131-139): iterate
the relationships in order, subscripting `relationship["type"]`; at the
first `scanlation_group` take `relationship["attributes"].get("name",
"Unknown Publisher")` and `break`. -/
def findPublisher : List Json → Except PyErr (Option Json)
  | [] => Except.ok none
  | rel :: rest => do
      let t ← rel.index "type"
      if t.isStrEq "scanlation_group" then do
        let a ← rel.index "attributes"
        let n ← a.dictGet "name" (Json.str "Unknown Publisher")
        Except.ok (some n)
      else
        findPublisher rest

/-- Per-chapter dict of `manga.FetchChapter` (lines 118-150): every field
is read with `.get` and a sentinel default; `PublisherName` defaults to
None and is set by the first scanlation-group relationship. -/
def shapeChapterItem (chapter : Json) : Except PyErr Json := do
  let attributes ← chapter.dictGet "attributes" (Json.obj [])
  let chid ← chapter.dictGet "id" Json.null
  let chnum ← attributes.dictGet "chapter" (Json.str "None")
  let volnum ← attributes.dictGet "volume" (Json.str "None")
  let tllang ← attributes.dictGet "translatedLanguage" (Json.str "None")
  let title ← attributes.dictGet "title" (Json.str "Unknown Title")
  let rels ← chapter.dictGet "relationships" (Json.arr [])
  let relList ← rels.pyIter
  let pub ← findPublisher relList
  Except.ok (Json.obj
    [("ChID", chid), ("CHNum", chnum), ("VolNum", volnum), ("TLLang", tllang),
     ("title", title), ("PublisherName", pub.getD Json.null)])

/-- Catch-all wrapper of `Search.author` line 280. -/
def wrapAuthor (e : PyErr) : PyErr :=
  PyErr.fetchErrorrMsg ("An error occurred while fetching author: " ++ e.pyStr)

/-- URL built by `Search.author` line 216. -/
def authorUrl (name : String) (ms : Int) : String :=
  "https://api.mangadex.org/author?name=" ++ quote name ++ "&limit=" ++ toString ms

/-- Social-media field list of `Search.author` (lines 250-265). -/
def authorSocialFields : List String :=
  ["twitter", "pixiv", "melonBook", "fanBox", "booth", "namicomi", "nicoVideo",
   "skeb", "fantia", "tumblr", "youtube", "weibo", "naver", "website"]

/-- Social-media collection loop of `Search.author` (lines 267-271): for
each field, `value = attributes.get(field)`; include it only when the
value is not None and not the string "None". -/
def socialOf (attrs : Json) : List String → Except PyErr (List (String × Json))
  | [] => Except.ok []
  | f :: rest => do
      let v ← attrs.dictGet f Json.null
      let tail ← socialOf attrs rest
      if v.isNull || v.isStrEq "None" then Except.ok tail
      else Except.ok ((f, v) :: tail)

/-- Per-author dict of `Search.author` (lines 242-273). -/
def shapeAuthorItem (author : Json) : Except PyErr Json := do
  let id_ ← author.index "id"
  let attrs ← author.index "attributes"
  let name ← attrs.index "name"
  let bio ← attrs.dictGet "biography" (Json.obj [])
  let sm ← socialOf attrs authorSocialFields
  Except.ok (Json.obj
    [("id", id_), ("name", name), ("biography", bio), ("social_media", Json.obj sm)])

/-- Result loop of `Search.author` (lines 241-273): unlike the manga
loops, `AuthorList` is appended to, one entry per item. -/
def authorLoop : List Json → Except PyErr (List Json)
  | [] => Except.ok []
  | a :: rest => do
      let info ← shapeAuthorItem a
      let tail ← authorLoop rest
      Except.ok (info :: tail)

/-- Post-parse phase of `Search.author`. -/
def authorListShape (data : Json) : Except PyErr (List Json) := do
  apiErrorCheck data
  let dArr ← data.index "data"
  let items ← dArr.pyIter
  authorLoop items

/-- Embedding of `Search.author` (`src/method/Search.py` lines 167-280). -/
def authorRun (authorName : String) (maxSearch : Option Int)
    (resp : HttpResponse) : FetchResult (List Json) :=
  let ms := maxSearch.getD 5
  let url := authorUrl authorName ms
  if resp.status_code != 200 then
    ⟨Except.error (wrapAuthor (PyErr.connectionError
        ("Failed to fetch author. Status code: " ++ toString resp.status_code))),
      [url], false⟩
  else
    match resp.json? with
    | none => ⟨Except.error (wrapAuthor (PyErr.valueError "Expecting value")), [url], true⟩
    | some data => ⟨(authorListShape data).mapError wrapAuthor, [url], true⟩

/-- Content-rating dict `ContentRattingVelue` of `Search.AdvanceSearch`
(lines 586-591), read with `.get(contentRating, "")` at line 600: an
unrecognized rating yields the empty clause, a pass-through. -/
def ContentRattingVelue : String → Option String
  | "all" => some "contentRating[]=safe&contentRating[]=suggestive&contentRating[]=erotica"
  | "safe" => some "contentRating[]=safe"
  | "suggestive" => some "contentRating[]=suggestive"
  | "erotica" => some "contentRating[]=erotica"
  | _ => none

/-- Demographic dict `DemographicVelue` of `Search.AdvanceSearch` (lines
592-599), keyed on `None` as well, read with `.get(Demographic, "")`. -/
def DemographicVelue : Option String → Option String
  | none => some "publicationDemographic[]=none"
  | some "all" => some ("publicationDemographic[]=shoujo&publicationDemographic[]=seinen"
      ++ "&publicationDemographic[]=shounen&publicationDemographic[]=josei"
      ++ "&publicationDemographic[]=none")
  | some "shoujo" => some "publicationDemographic[]=shoujo"
  | some "shounen" => some "publicationDemographic[]=shounen"
  | some "seinen" => some "publicationDemographic[]=seinen"
  | some "josei" => some "publicationDemographic[]=josei"
  | some _ => none

/-- Modelled from the spec: `TagAdvance.ShortTypeID` lives in
`src/data/TagId.py`, which is not under `src/`.  Per spec section 4.1 the
sort table maps each code to a "field direction" pair, and the
`AdvanceSearch` docstring (lines 539-552) fixes the thirteen pairs; per
section 4.2 an unresolved code fails rather than silently omitting the
clause. -/
def ShortTypeID (n : Int) : Except PyErr String :=
  if n == 1 then Except.ok "relevance"
  else if n == 2 then Except.ok "latestUploadedChapter desc"
  else if n == 3 then Except.ok "latestUploadedChapter asc"
  else if n == 4 then Except.ok "title asc"
  else if n == 5 then Except.ok "title desc"
  else if n == 6 then Except.ok "rating desc"
  else if n == 7 then Except.ok "rating asc"
  else if n == 8 then Except.ok "followedCount desc"
  else if n == 9 then Except.ok "followedCount asc"
  else if n == 10 then Except.ok "createdAt desc"
  else if n == 11 then Except.ok "createdAt asc"
  else if n == 12 then Except.ok "year asc"
  else if n == 13 then Except.ok "year desc"
  else Except.error (PyErr.keyError (toString n))

/-- Python `s.replace(pat, rep)` for a single-character pattern, the only
form the source uses (`velueShort.replace(" ", "]=")` at line 618). -/
def pyReplaceChar (s : String) (pat : Char) (rep : String) : String :=
  String.join (s.toList.map (fun c => if c == pat then rep else String.singleton c))

/-- Sort-clause construction of `Search.AdvanceSearch` (lines 616-618):
`if Shortby and Shortby != 1:` (so `None`, `0` and `1` emit no clause),
then `order = f"order[" + velueShort.replace(" ", "]=") + "]"` — note the
closing bracket of the f-string is appended after the replacement already
inserted `]=`. -/
def orderClause (shortby : Option Int) : Except PyErr (Option String) :=
  match shortby with
  | none => Except.ok none
  | some n =>
      if n != 0 && n != 1 then
        (ShortTypeID n).map (fun v => some ("order[" ++ pyReplaceChar v ' ' "]=" ++ "]"))
      else
        Except.ok none

/-- Catch-all wrapper of `Search.AdvanceSearch` lines 706-710. -/
def wrapAdvance (e : PyErr) : PyErr :=
  PyErr.fetchErrorrMsg ("An error occurred while performing advanced search: " ++ e.pyStr)

/-- Author-resolution phase of `Search.AdvanceSearch` (lines 607-614):
when `SearchByAuthor` is given, run `self.author(name, MaxSearch=1)`; the
inner `try` around `SearchAuthor[0].get("id")` re-raises any failure
(IndexError on an empty result list included) as `FetchErrorr("Error
fetching author ID: ...")`.  Returns the outcome, the URLs requested so
far and whether a JSON parse was attempted. -/
def advanceAuthorPhase (searchByAuthor : Option String) (authorResp : HttpResponse) :
    Except PyErr (Option Json) × List String × Bool :=
  match searchByAuthor with
  | none => (Except.ok none, [], false)
  | some name =>
    let ares := authorRun name (some 1) authorResp
    match ares.result with
    | Except.error e => (Except.error e, ares.requested, ares.jsonAttempted)
    | Except.ok authors =>
      match authors.head? with
      | none =>
          (Except.error (PyErr.fetchErrorrMsg
              ("Error fetching author ID: " ++ PyErr.indexError.pyStr)),
            ares.requested, ares.jsonAttempted)
      | some a0 =>
        match a0.dictGet "id" Json.null with
        | Except.error e =>
            (Except.error (PyErr.fetchErrorrMsg ("Error fetching author ID: " ++ e.pyStr)),
              ares.requested, ares.jsonAttempted)
        | Except.ok idv =>
            (Except.ok (if idv.isNull then none else some idv),
              ares.requested, ares.jsonAttempted)

/-- Included-tags clause of `Search.AdvanceSearch` (lines 620-625).
`filterTagsID` stands for `TagAdvance.FilterTagsID` of `src/data/TagId.py`,
which is not under `src/`; it is passed as a parameter and unused by every
claim (all claims fix `TagName = None`). -/
def includedTagsClause (filterTagsID : List String → List String)
    (tagName : Option (List String)) : Option String :=
  match tagName with
  | none => none
  | some l =>
      if l.isEmpty then none
      else some ("includedTags[]=" ++ String.intercalate "&includedTags[]=" (filterTagsID l))

/-- URL assembly of `Search.AdvanceSearch` (lines 627-640): the base query
with the content-rating and demographic expansions spliced in (an empty
expansion leaves a bare `&&`), then the optional tag, title, order and
artist clauses in that order. -/
def advanceSearchUrl (query : Option String) (includedTags : Option String)
    (idAuthor : Option Json) (maxSearch : Int) (cr demo lowertrue : String)
    (order : Option String) : String :=
  let base := "https://api.mangadex.org/manga?limit=" ++ toString maxSearch
    ++ "&offset=0&includes[]=cover_art&" ++ cr
    ++ "&hasAvailableChapters=" ++ lowertrue
    ++ "&includedTagsMode=AND&excludedTagsMode=OR&" ++ demo
  let u1 := match includedTags with
    | some t => base ++ "&" ++ t
    | none => base
  let u2 := match query with
    | some q => if q != "" then u1 ++ "&title=" ++ quote q else u1
    | none => u1
  let u3 := match order with
    | some o => u2 ++ "&" ++ o
    | none => u2
  match idAuthor with
  | some idv => u3 ++ "&artists[]=" ++ idv.pyStr
  | none => u3

/-- Embedding of `Search.AdvanceSearch` (`src/method/Search.py` lines
512-710).  The phases run in source order: content-rating and demographic
lookups with `""` default, author resolution, sort clause, tags, URL
assembly, then the manga GET checked with `response.raise_for_status()`
(which raises only for status codes 400-599).  The whole body runs under
`except Exception`, re-raised as the catch-all `FetchErrorr`. -/
def advanceSearchRun (query : Option String) (tagName : Option (List String))
    (filterTagsID : List String → List String) (searchByAuthor : Option String)
    (maxSearch : Int) (contentRating : String) (demographic : Option String)
    (hasAvailableChapters : Bool) (shortby : Option Int)
    (authorResp mangaResp : HttpResponse) : FetchResult Json :=
  let cr := (ContentRattingVelue contentRating).getD ""
  let demo := (DemographicVelue demographic).getD ""
  let lowertrue := if hasAvailableChapters then "true" else "false"
  let ap := advanceAuthorPhase searchByAuthor authorResp
  match ap.1 with
  | Except.error e => ⟨Except.error (wrapAdvance e), ap.2.1, ap.2.2⟩
  | Except.ok idAuthor =>
    match orderClause shortby with
    | Except.error e => ⟨Except.error (wrapAdvance e), ap.2.1, ap.2.2⟩
    | Except.ok order =>
      let includedTags := includedTagsClause filterTagsID tagName
      let url := advanceSearchUrl query includedTags idAuthor maxSearch cr demo lowertrue order
      let reqs := ap.2.1 ++ [url]
      if 400 ≤ mangaResp.status_code ∧ mangaResp.status_code < 600 then
        ⟨Except.error (wrapAdvance (PyErr.httpError mangaResp.status_code)), reqs, ap.2.2⟩
      else
        match mangaResp.json? with
        | none => ⟨Except.error (wrapAdvance (PyErr.valueError "Expecting value")), reqs, true⟩
        | some data => ⟨(mangaListShape data).mapError wrapAdvance, reqs, true⟩

/-- A success envelope whose `data` field holds the given items
(`result` set to "ok", as in a non-error MangaDex response). -/
def listPayload (items : List Json) : Json :=
  Json.obj [("result", Json.str "ok"), ("data", Json.arr items)]

/-- A complete manga item: every field the shaper touches is present. -/
def itemFull : Json := Json.obj
  [("id", Json.str "m1"),
   ("relationships", Json.arr
     [Json.obj [("type", Json.str "cover_art"),
                ("attributes", Json.obj [("fileName", Json.str "c1.jpg")])]]),
   ("attributes", Json.obj
     [("title", Json.obj [("en", Json.str "T")]),
      ("altTitles", Json.arr []),
      ("description", Json.obj [("en", Json.str "D")]),
      ("year", Json.num 2020),
      ("tags", Json.arr []),
      ("status", Json.str "ongoing")])]

/-- The `MangaInfo` record the shaper produces for `itemFull`. -/
def itemFullShaped : Json := Json.obj
  [("id", Json.str "m1"), ("title", Json.str "T"), ("altTitles", Json.arr []),
   ("description", Json.str "D"), ("year", Json.num 2020), ("tags", Json.arr []),
   ("status", Json.str "ongoing"),
   ("CoverSmall", Json.str "https://mangadex.org/covers/m1/c1.jpg.256.jpg"),
   ("CoverLarge", Json.str "https://mangadex.org/covers/m1/c1.jpg")]

/-- A `cover_art` relationship entry with the given file name. -/
def relCover (fn : String) : Json :=
  Json.obj [("type", Json.str "cover_art"),
            ("attributes", Json.obj [("fileName", Json.str fn)])]

/-- A `scanlation_group` relationship entry with the given group name. -/
def relSG (n : String) : Json :=
  Json.obj [("type", Json.str "scanlation_group"),
            ("attributes", Json.obj [("name", Json.str n)])]

/-- A manga item whose relationships hold two `cover_art` entries. -/
def itemTwoCovers : Json := Json.obj
  [("id", Json.str "m1"),
   ("relationships", Json.arr [relCover "c1.jpg", relCover "c2.jpg"]),
   ("attributes", Json.obj
     [("title", Json.obj [("en", Json.str "T")]),
      ("altTitles", Json.arr []),
      ("description", Json.obj [("en", Json.str "D")]),
      ("year", Json.num 2020),
      ("tags", Json.arr []),
      ("status", Json.str "ongoing")])]

/-- The record produced for `itemTwoCovers`: both cover URLs are built
from the first cover entry `c1.jpg`. -/
def itemTwoCoversShaped : Json := Json.obj
  [("id", Json.str "m1"), ("title", Json.str "T"), ("altTitles", Json.arr []),
   ("description", Json.str "D"), ("year", Json.num 2020), ("tags", Json.arr []),
   ("status", Json.str "ongoing"),
   ("CoverSmall", Json.str "https://mangadex.org/covers/m1/c1.jpg.256.jpg"),
   ("CoverLarge", Json.str "https://mangadex.org/covers/m1/c1.jpg")]

/-- A chapter item whose relationships hold two `scanlation_group`
entries, G1 first. -/
def chapterTwoSG : Json := Json.obj
  [("id", Json.str "ch1"),
   ("attributes", Json.obj
     [("chapter", Json.str "1"), ("volume", Json.str "1"),
      ("translatedLanguage", Json.str "en"), ("title", Json.str "Ch")]),
   ("relationships", Json.arr [relSG "G1", relSG "G2"])]

/-- The record produced for `chapterTwoSG`: `PublisherName` comes from the
first scanlation group G1. -/
def chapterTwoSGShaped : Json := Json.obj
  [("ChID", Json.str "ch1"), ("CHNum", Json.str "1"), ("VolNum", Json.str "1"),
   ("TLLang", Json.str "en"), ("title", Json.str "Ch"),
   ("PublisherName", Json.str "G1")]

/-- A manga item whose attributes lack the `year` key (its english title
left as a parameter), with every other field present. -/
def itemNoYearP (tEn : String) : Json := Json.obj
  [("id", Json.str "m1"), ("relationships", Json.arr []),
   ("attributes", Json.obj
     [("title", Json.obj [("en", Json.str tEn)]), ("altTitles", Json.arr []),
      ("description", Json.obj []), ("tags", Json.arr []),
      ("status", Json.str "ongoing")])]

/-- A random-manga payload whose single object lacks the optional `year`
and `altTitles` keys. -/
def randomPayloadNoOpt : Json := Json.obj
  [("result", Json.str "ok"),
   ("data", Json.obj
     [("id", Json.str "m1"), ("relationships", Json.arr []),
      ("attributes", Json.obj
        [("title", Json.obj [("en", Json.str "T")]),
         ("description", Json.obj [("en", Json.str "D")]),
         ("tags", Json.arr []), ("status", Json.str "ongoing")])])]

/-- The record `RandomSearch` produces for `randomPayloadNoOpt`: the `year`
key is present with value null and `altTitles` with the empty list. -/
def randomNoOptShaped : Json := Json.obj
  [("id", Json.str "m1"), ("title", Json.str "T"), ("altTitles", Json.arr []),
   ("description", Json.str "D"), ("year", Json.null), ("tags", Json.arr []),
   ("status", Json.str "ongoing"),
   ("CoverSmall", Json.str "https://mangadex.org/covers/m1/default_cover.jpg.256.jpg"),
   ("CoverLarge", Json.str "https://mangadex.org/covers/m1/default_cover.jpg")]

/-- A random-manga payload whose single object lacks the `description`
key. -/
def randomPayloadNoDesc : Json := Json.obj
  [("result", Json.str "ok"),
   ("data", Json.obj
     [("id", Json.str "m1"), ("relationships", Json.arr []),
      ("attributes", Json.obj
        [("title", Json.obj [("en", Json.str "T")]), ("altTitles", Json.arr []),
         ("tags", Json.arr []), ("status", Json.str "ongoing")])])]

/-- An error envelope carrying one entry in `errors`. -/
def errPayload : Json := Json.obj
  [("result", Json.str "error"),
   ("errors", Json.arr [Json.obj
     [("status", Json.num 404), ("title", Json.str "Not Found"),
      ("detail", Json.str "Manga not found"), ("id", Json.str "abc")]])]

/-- A payload whose chapter image data is `baseUrl`/`hash`/`data` built
from the given strings, as returned by `GET /at-home/server/...`. -/
def chapterPayload (B H : String) (F : List String) : Json :=
  Json.obj [("baseUrl", Json.str B),
    ("chapter", Json.obj [("hash", Json.str H), ("data", Json.arr (F.map Json.str))])]

/-- A 200 author response whose `data` array is empty. -/
def emptyAuthorResp : HttpResponse := ⟨200, some (listPayload [])⟩

@[simp] theorem pyBindOk {α β : Type} (a : α) (f : α → Except PyErr β) :
    (Except.ok a : Except PyErr α) >>= f = f a := rfl

@[simp] theorem pyBindErr {α β : Type} (e : PyErr) (f : α → Except PyErr β) :
    (Except.error e : Except PyErr α) >>= f = Except.error e := rfl

/-- Claim C2 is violated by the code: on a non-200 status the raised
`ConnectionError` is caught by the surrounding `except Exception` and
re-raised as the catch-all `FetchErrorr`, so the caller receives the
OperationFailed kind, not ConnectionFailure — JSON parsing is indeed
skipped there; and `AdvanceSearch` checks the status with
`raise_for_status()`, so a non-200 code below 400 (here 204) raises
nothing and the body IS parsed as JSON, the operation even succeeding. -/
theorem non200_status_wrapped_into_catchall_eval :
    (searchMangaRun "x" "all" none ⟨404, some (Json.obj [])⟩).result
      = Except.error (wrapSearchManga
          (PyErr.connectionError "Failed to fetch manga. Status code: 404"))
    ∧ errKindOf (searchMangaRun "x" "all" none ⟨404, some (Json.obj [])⟩).result
      = some ErrKind.opFailed
    ∧ some ErrKind.opFailed ≠ some ErrKind.connection
    ∧ (searchMangaRun "x" "all" none ⟨404, some (Json.obj [])⟩).jsonAttempted = false
    ∧ errKindOf (fetchChapterIMGRun "c" ⟨404, some (Json.obj [])⟩).result
      = some ErrKind.opFailed
    ∧ (fetchChapterIMGRun "c" ⟨404, some (Json.obj [])⟩).jsonAttempted = false
    ∧ (advanceSearchRun none none (fun _ => []) none 1 "all" none true none ⟨0, none⟩
        ⟨204, some (listPayload [itemFull])⟩).jsonAttempted = true
    ∧ errKindOf (advanceSearchRun none none (fun _ => []) none 1 "all" none true none ⟨0, none⟩
        ⟨204, some (listPayload [itemFull])⟩).result = none :=
  ⟨rfl, rfl, by decide, rfl, rfl, rfl, rfl, rfl⟩

/-- Claim C3 is violated by the code: on a parsed body with
`result = "error"` the four-field `FetchErrorr(status, title, detail, id)`
is constructed verbatim from the first `errors` entry (first conjunct),
but the surrounding `except Exception` catches it and re-raises the
catch-all message-only `FetchErrorr`, so the caller receives the
OperationFailed kind with the fields stringified into a message, not the
ApiReportedError kind carrying them verbatim. -/
theorem api_reported_error_fields_swallowed_eval :
    apiErrorCheck errPayload
      = Except.error (PyErr.fetchErrorrFields (Json.num 404) (Json.str "Not Found")
          (Json.str "Manga not found") (Json.str "abc"))
    ∧ (searchMangaRun "x" "all" none ⟨200, some errPayload⟩).result
      = Except.error (wrapSearchManga (PyErr.fetchErrorrFields (Json.num 404)
          (Json.str "Not Found") (Json.str "Manga not found") (Json.str "abc")))
    ∧ errKindOf (searchMangaRun "x" "all" none ⟨200, some errPayload⟩).result
      = some ErrKind.opFailed
    ∧ some ErrKind.opFailed ≠ some ErrKind.apiReported
    ∧ errKindOf (advanceSearchRun none none (fun _ => []) none 1 "all" none true none ⟨0, none⟩
        ⟨200, some errPayload⟩).result = some ErrKind.opFailed :=
  ⟨rfl, rfl, rfl, by decide, rfl⟩

/-- Claim C4 is violated by the code: on a 200 response whose body is not
valid JSON, `Search.manga` lets the ValueError reach its catch-all (it
never constructs a JSONError — `Search.py` does not even import it), and
`manga.FetchChapterIMG` constructs `JSONError("Failed to parse Manga
Payload.")` but its catch-all re-wraps it; either way the caller receives
the OperationFailed kind, not the distinct PayloadParseError kind. -/
theorem invalid_json_not_payload_parse_error_eval :
    (searchMangaRun "x" "all" none ⟨200, none⟩).result
      = Except.error (wrapSearchManga (PyErr.valueError "Expecting value"))
    ∧ errKindOf (searchMangaRun "x" "all" none ⟨200, none⟩).result = some ErrKind.opFailed
    ∧ (fetchChapterIMGRun "c" ⟨200, none⟩).result
      = Except.error (wrapChapter (PyErr.jsonError "Failed to parse Manga Payload."))
    ∧ errKindOf (fetchChapterIMGRun "c" ⟨200, none⟩).result = some ErrKind.opFailed
    ∧ some ErrKind.opFailed ≠ some ErrKind.payloadParse :=
  ⟨rfl, rfl, rfl, rfl, by decide⟩

/-- Claim C5 as stated is false for `Search.manga` and
`Search.RandomSearch`: with the unrecognized content rating
"pornographic" neither produces any query string — no request is issued
at all — because the unassigned `CntnRate` variable raises
UnboundLocalError, re-raised as the catch-all `FetchErrorr`. -/
theorem unknown_content_rating_not_passthrough_cex :
    (searchMangaRun "x" "pornographic" none ⟨200, some (listPayload [itemFull])⟩).requested = []
    ∧ errKindOf (searchMangaRun "x" "pornographic" none
        ⟨200, some (listPayload [itemFull])⟩).result = some ErrKind.opFailed
    ∧ (randomSearchRun "pornographic" ⟨200, some (Json.obj [])⟩).requested = []
    ∧ errKindOf (randomSearchRun "pornographic" ⟨200, some (Json.obj [])⟩).result
      = some ErrKind.opFailed :=
  ⟨rfl, rfl, rfl, rfl⟩

/-- Claim C5 amended: only `Search.AdvanceSearch` treats an unrecognized
content rating as a pass-through, building its query with an empty
content-rating expansion (no `contentRating` clause, a bare `&&` left
where it would go); `Search.manga` and `Search.RandomSearch` instead fail
with the catch-all `FetchErrorr` before issuing any request. -/
theorem unknown_content_rating_amended (r : String) (resp : HttpResponse)
    (h1 : cntnRate? r = none) (h2 : ContentRattingVelue r = none) :
    errKindOf (searchMangaRun "x" r none resp).result = some ErrKind.opFailed
    ∧ (searchMangaRun "x" r none resp).requested = []
    ∧ errKindOf (randomSearchRun r resp).result = some ErrKind.opFailed
    ∧ (randomSearchRun r resp).requested = []
    ∧ (advanceSearchRun none none (fun _ => []) none 1 r none true none ⟨0, none⟩
        ⟨200, some (Json.obj [])⟩).requested
      = ["https://api.mangadex.org/manga?limit=1&offset=0&includes[]=cover_art&"
          ++ "&hasAvailableChapters=true&includedTagsMode=AND&excludedTagsMode=OR"
          ++ "&publicationDemographic[]=none"] := by
  have e1 : searchMangaRun "x" r none resp
      = ⟨Except.error (wrapSearchManga (PyErr.nameError "CntnRate")), [], false⟩ := by
    unfold searchMangaRun
    rw [h1]
  have e2 : randomSearchRun r resp
      = ⟨Except.error (wrapSearchManga (PyErr.nameError "CntnRate")), [], false⟩ := by
    unfold randomSearchRun
    rw [h1]
  have e3 : (advanceSearchRun none none (fun _ => []) none 1 r none true none ⟨0, none⟩
      ⟨200, some (Json.obj [])⟩).requested
      = ["https://api.mangadex.org/manga?limit=1&offset=0&includes[]=cover_art&"
          ++ "&hasAvailableChapters=true&includedTagsMode=AND&excludedTagsMode=OR"
          ++ "&publicationDemographic[]=none"] := by
    unfold advanceSearchRun
    rw [h2]
    rfl
  rw [e1, e2]
  exact ⟨rfl, rfl, rfl, rfl, e3⟩

/-- Witness for `unknown_content_rating_amended` at the concrete rating
"pornographic" and a concrete response. -/
theorem unknown_content_rating_amended_witness :
    errKindOf (searchMangaRun "x" "pornographic" none ⟨404, none⟩).result = some ErrKind.opFailed
    ∧ (searchMangaRun "x" "pornographic" none ⟨404, none⟩).requested = []
    ∧ errKindOf (randomSearchRun "pornographic" ⟨404, none⟩).result = some ErrKind.opFailed
    ∧ (randomSearchRun "pornographic" ⟨404, none⟩).requested = []
    ∧ (advanceSearchRun none none (fun _ => []) none 1 "pornographic" none true none ⟨0, none⟩
        ⟨200, some (Json.obj [])⟩).requested
      = ["https://api.mangadex.org/manga?limit=1&offset=0&includes[]=cover_art&"
          ++ "&hasAvailableChapters=true&includedTagsMode=AND&excludedTagsMode=OR"
          ++ "&publicationDemographic[]=none"] :=
  unknown_content_rating_amended "pornographic" ⟨404, none⟩ rfl rfl

/-- Claim C7: `FetchChapterIMG` builds one URL per page filename, in
order, by concatenating the base URL, "/data/", the hash, "/" and the
filename; the list has the same length and order as the server's `data`
array, and the claim's concrete example evaluates as stated. -/
theorem chapter_image_urls_concatenation (B H : String) (F : List String) :
    chapterImageUrlsOf (chapterPayload B H F)
      = Except.ok (F.map (fun f => B ++ "/data/" ++ H ++ "/" ++ f))
    ∧ (F.map (fun f => B ++ "/data/" ++ H ++ "/" ++ f)).length = F.length
    ∧ (∀ i : Nat, (F.map (fun f => B ++ "/data/" ++ H ++ "/" ++ f))[i]?
        = F[i]?.map (fun f => B ++ "/data/" ++ H ++ "/" ++ f))
    ∧ chapterImageUrlsOf (chapterPayload "https://X" "H" ["a.png", "b.png"])
      = Except.ok ["https://X/data/H/a.png", "https://X/data/H/b.png"] := by
  refine ⟨?_, List.length_map F _, ?_, rfl⟩
  · have h : chapterImageUrlsOf (chapterPayload B H F)
        = Except.ok ((F.map Json.str).map
            (fun img => B ++ "/data/" ++ H ++ "/" ++ img.pyStr)) := rfl
    rw [h, List.map_map]
    rfl
  · intro i
    simp [List.getElem?_map]

/-- Claim C8: an `AdvanceSearch` whose author lookup returns an empty
list fails with the catch-all `FetchErrorr` (OperationFailed) wrapping
the IndexError of `SearchAuthor[0]` re-raised as "Error fetching author
ID: ...", and the only URL requested is the author lookup — the manga
search GET is never issued, whatever the manga response would have
been. -/
theorem advance_search_empty_author_fails_before_manga_get
    (name : String) (mangaResp : HttpResponse) :
    (advanceSearchRun none none (fun _ => []) (some name) 1 "all" none true none
        emptyAuthorResp mangaResp).result
      = Except.error (PyErr.fetchErrorrMsg
          ("An error occurred while performing advanced search: "
            ++ "Error fetching author ID: list index out of range"))
    ∧ errKindOf (advanceSearchRun none none (fun _ => []) (some name) 1 "all" none true none
        emptyAuthorResp mangaResp).result = some ErrKind.opFailed
    ∧ (advanceSearchRun none none (fun _ => []) (some name) 1 "all" none true none
        emptyAuthorResp mangaResp).requested = [authorUrl name 1] :=
  ⟨rfl, rfl, rfl⟩

/-- Claim C9 as stated is false: a manga item whose attributes lack the
`year` key makes `Search.manga` fail with the catch-all `FetchErrorr`
(the direct subscript raises KeyError) instead of producing a record with
a null `year`. -/
theorem missing_optional_fields_fail_cex :
    shapeMangaItem (itemNoYearP "T") = Except.error (PyErr.keyError "year")
    ∧ errKindOf (searchMangaRun "x" "all" none
        ⟨200, some (listPayload [itemNoYearP "T"])⟩).result = some ErrKind.opFailed :=
  ⟨rfl, rfl⟩

/-- Claim C9 amended: in `Search.manga` and `Search.AdvanceSearch` the
fields `year`, `altTitles` and `description` are read by direct
subscript, so a missing key fails the whole operation with the catch-all
`FetchErrorr`; only `Search.RandomSearch` defaults a missing `year` to
null and a missing `altTitles` to the empty list (keys still present in
the record), while a missing `description` fails even there. -/
theorem missing_optional_fields_amended (tEn : String) :
    shapeMangaItem (itemNoYearP tEn) = Except.error (PyErr.keyError "year")
    ∧ errKindOf (advanceSearchRun none none (fun _ => []) none 1 "all" none true none ⟨0, none⟩
        ⟨200, some (listPayload [itemNoYearP tEn])⟩).result = some ErrKind.opFailed
    ∧ randomShape randomPayloadNoOpt = Except.ok randomNoOptShaped
    ∧ randomShape randomPayloadNoDesc = Except.error (PyErr.keyError "description") :=
  ⟨rfl, rfl, rfl, rfl⟩

/-- Claim C10 as stated is false for the emitted clause text: sort code 2
produces `order[latestUploadedChapter]=desc]` — the f-string closes a
bracket that the `.replace(" ", "]=")` already inserted — which is not the
table's `order[latestUploadedChapter]=desc`. -/
theorem sort_code_trailing_bracket_cex :
    orderClause (some 2) = Except.ok (some "order[latestUploadedChapter]=desc]")
    ∧ "order[latestUploadedChapter]=desc]" ≠ "order[latestUploadedChapter]=desc" :=
  ⟨rfl, by decide⟩

set_option maxRecDepth 4000 in
/-- Claim C10 amended: an absent sort code and codes 1 (and falsy 0) emit
no `order[...]` clause; each code 2-13 emits exactly one order clause for
the table's field and direction, but with a stray trailing `]` appended
after the direction; the full `AdvanceSearch` query for code 2 contains
that single clause at its end. -/
theorem sort_code_order_clause_amended :
    orderClause none = Except.ok none
    ∧ orderClause (some 1) = Except.ok none
    ∧ orderClause (some 0) = Except.ok none
    ∧ orderClause (some 2) = Except.ok (some "order[latestUploadedChapter]=desc]")
    ∧ orderClause (some 3) = Except.ok (some "order[latestUploadedChapter]=asc]")
    ∧ orderClause (some 4) = Except.ok (some "order[title]=asc]")
    ∧ orderClause (some 5) = Except.ok (some "order[title]=desc]")
    ∧ orderClause (some 6) = Except.ok (some "order[rating]=desc]")
    ∧ orderClause (some 7) = Except.ok (some "order[rating]=asc]")
    ∧ orderClause (some 8) = Except.ok (some "order[followedCount]=desc]")
    ∧ orderClause (some 9) = Except.ok (some "order[followedCount]=asc]")
    ∧ orderClause (some 10) = Except.ok (some "order[createdAt]=desc]")
    ∧ orderClause (some 11) = Except.ok (some "order[createdAt]=asc]")
    ∧ orderClause (some 12) = Except.ok (some "order[year]=asc]")
    ∧ orderClause (some 13) = Except.ok (some "order[year]=desc]")
    ∧ (advanceSearchRun none none (fun _ => []) none 1 "all" none true (some 2) ⟨0, none⟩
        ⟨200, some (Json.obj [])⟩).requested
      = ["https://api.mangadex.org/manga?limit=1&offset=0&includes[]=cover_art"
          ++ "&contentRating[]=safe&contentRating[]=suggestive&contentRating[]=erotica"
          ++ "&hasAvailableChapters=true&includedTagsMode=AND&excludedTagsMode=OR"
          ++ "&publicationDemographic[]=none&order[latestUploadedChapter]=desc]"] :=
  ⟨rfl, rfl, rfl, rfl, rfl, rfl, rfl, rfl, rfl, rfl, rfl, rfl, rfl, rfl, rfl, rfl⟩

theorem shapeAll_append (front : List Json) (x : Json) (pre : List Json) (i : Json)
    (hf : shapeAll front = Except.ok pre) (hx : shapeMangaItem x = Except.ok i) :
    shapeAll (front ++ [x]) = Except.ok (pre ++ [i]) := by
  induction front generalizing pre with
  | nil =>
      simp only [shapeAll, Except.ok.injEq] at hf
      subst hf
      simp [shapeAll, hx]
  | cons m rest ih =>
      simp only [shapeAll] at hf
      cases hm : shapeMangaItem m with
      | error e => rw [hm] at hf; simp at hf
      | ok im =>
          rw [hm] at hf
          rw [pyBindOk] at hf
          cases hr : shapeAll rest with
          | error e => rw [hr] at hf; simp at hf
          | ok tl =>
              rw [hr] at hf
              simp only [pyBindOk, Except.ok.injEq] at hf
              subst hf
              simp only [List.cons_append, shapeAll, hm, pyBindOk]
              rw [show shapeAll (rest.append [x]) = Except.ok (tl ++ [i]) from ih tl hr]
              rfl

theorem mangaLoop_of_shapeAll (items : List Json) :
    ∀ infos, shapeAll items = Except.ok infos →
    ∀ ml acc, mangaLoop items ml acc = Except.ok (ml, lastOr infos acc) := by
  induction items with
  | nil =>
      intro infos h ml acc
      simp only [shapeAll, Except.ok.injEq] at h
      subst h
      rfl
  | cons m rest ih =>
      intro infos h ml acc
      simp only [shapeAll] at h
      cases hm : shapeMangaItem m with
      | error e => rw [hm] at h; simp at h
      | ok im =>
          rw [hm] at h
          rw [pyBindOk] at h
          cases hr : shapeAll rest with
          | error e => rw [hr] at h; simp at h
          | ok tl =>
              rw [hr] at h
              simp only [pyBindOk, Except.ok.injEq] at h
              subst h
              simp only [mangaLoop, hm, pyBindOk]
              exact ih tl hr ml (some im)

theorem lastOr_append {α : Type} (xs : List α) (y : α) (acc : Option α) :
    lastOr (xs ++ [y]) acc = some y := by
  induction xs generalizing acc with
  | nil => rfl
  | cons x xs ih => exact ih (some x)

/-- Claim C1: on a success envelope, `Search.manga` and
`Search.AdvanceSearch` return the single record shaped from the LAST item
of the `data` array (the loop rebinds `MangaInfo` each iteration and
returns it once), `MangaList` stays empty (second conjunct), and on an
empty `data` array the unbound `MangaInfo` raises NameError, surfaced to
the caller as the catch-all `FetchErrorr`. -/
theorem searchManga_and_advanceSearch_return_last_item_only
    (front : List Json) (lastItem lastInfo : Json) (preInfos : List Json)
    (hfront : shapeAll front = Except.ok preInfos)
    (hlast : shapeMangaItem lastItem = Except.ok lastInfo) :
    mangaListShape (listPayload (front ++ [lastItem])) = Except.ok lastInfo
    ∧ mangaLoop (front ++ [lastItem]) [] none = Except.ok ([], some lastInfo)
    ∧ mangaListShape (listPayload []) = Except.error (PyErr.nameError "MangaInfo")
    ∧ errKindOf (searchMangaRun "x" "all" none ⟨200, some (listPayload [])⟩).result
      = some ErrKind.opFailed
    ∧ errKindOf (advanceSearchRun none none (fun _ => []) none 1 "all" none true none ⟨0, none⟩
        ⟨200, some (listPayload [])⟩).result = some ErrKind.opFailed
    ∧ (searchMangaRun "x" "all" none
        ⟨200, some (listPayload (front ++ [lastItem]))⟩).result = Except.ok lastInfo
    ∧ (advanceSearchRun none none (fun _ => []) none 1 "all" none true none ⟨0, none⟩
        ⟨200, some (listPayload (front ++ [lastItem]))⟩).result = Except.ok lastInfo := by
  have hall : shapeAll (front ++ [lastItem]) = Except.ok (preInfos ++ [lastInfo]) :=
    shapeAll_append front lastItem preInfos lastInfo hfront hlast
  have hloop : mangaLoop (front ++ [lastItem]) [] none
      = Except.ok ([], lastOr (preInfos ++ [lastInfo]) none) :=
    mangaLoop_of_shapeAll (front ++ [lastItem]) (preInfos ++ [lastInfo]) hall [] none
  rw [lastOr_append] at hloop
  have ha : mangaListShape (listPayload (front ++ [lastItem])) = Except.ok lastInfo := by
    have hms : mangaListShape (listPayload (front ++ [lastItem]))
        = (mangaLoop (front ++ [lastItem]) [] none) >>= (fun st =>
            match st.2 with
            | some info => Except.ok info
            | none => Except.error (PyErr.nameError "MangaInfo")) := rfl
    rw [hms, hloop]
    rfl
  have hs : (searchMangaRun "x" "all" none
      ⟨200, some (listPayload (front ++ [lastItem]))⟩).result
      = (mangaListShape (listPayload (front ++ [lastItem]))).mapError wrapSearchManga := rfl
  have hv : (advanceSearchRun none none (fun _ => []) none 1 "all" none true none ⟨0, none⟩
      ⟨200, some (listPayload (front ++ [lastItem]))⟩).result
      = (mangaListShape (listPayload (front ++ [lastItem]))).mapError wrapAdvance := rfl
  rw [ha] at hs hv
  exact ⟨ha, hloop, rfl, rfl, rfl, hs, hv⟩

/-- Witness for `searchManga_and_advanceSearch_return_last_item_only`: a
one-item `data` array, whose only (hence last) item is `itemFull`. -/
theorem searchManga_and_advanceSearch_return_last_item_only_witness :
    mangaListShape (listPayload [itemFull]) = Except.ok itemFullShaped
    ∧ mangaLoop [itemFull] [] none = Except.ok ([], some itemFullShaped)
    ∧ mangaListShape (listPayload []) = Except.error (PyErr.nameError "MangaInfo")
    ∧ errKindOf (searchMangaRun "x" "all" none ⟨200, some (listPayload [])⟩).result
      = some ErrKind.opFailed
    ∧ errKindOf (advanceSearchRun none none (fun _ => []) none 1 "all" none true none ⟨0, none⟩
        ⟨200, some (listPayload [])⟩).result = some ErrKind.opFailed
    ∧ (searchMangaRun "x" "all" none
        ⟨200, some (listPayload [itemFull])⟩).result = Except.ok itemFullShaped
    ∧ (advanceSearchRun none none (fun _ => []) none 1 "all" none true none ⟨0, none⟩
        ⟨200, some (listPayload [itemFull])⟩).result = Except.ok itemFullShaped :=
  searchManga_and_advanceSearch_return_last_item_only [] itemFull itemFullShaped [] rfl rfl

/-- True when a relationship entry has a `type` value that is a readable
key and is not the string `ty`: the scan conditions evaluate it without
raising and pass over it. -/
def relTypeIsNot (ty : String) (x : Json) : Bool :=
  match x.index "type" with
  | Except.ok t => !(t.isStrEq ty)
  | Except.error _ => false

theorem firstRelOfType_skips (ty : String) (pre : List Json) (rest : List Json)
    (hpre : pre.all (relTypeIsNot ty) = true) :
    firstRelOfType ty (pre ++ rest) = firstRelOfType ty rest := by
  induction pre with
  | nil => rfl
  | cons x xs ih =>
      simp only [List.all_cons, Bool.and_eq_true] at hpre
      obtain ⟨hx, hxs⟩ := hpre
      unfold relTypeIsNot at hx
      cases hxt : x.index "type" with
      | error e => rw [hxt] at hx; simp at hx
      | ok t =>
          rw [hxt] at hx
          simp only [Bool.not_eq_true'] at hx
          simp only [List.cons_append, firstRelOfType, hxt, pyBindOk, hx]
          simp only [Bool.false_eq_true, if_false]
          exact ih hxs

theorem findPublisher_skips (pre : List Json) (rest : List Json)
    (hpre : pre.all (relTypeIsNot "scanlation_group") = true) :
    findPublisher (pre ++ rest) = findPublisher rest := by
  induction pre with
  | nil => rfl
  | cons x xs ih =>
      simp only [List.all_cons, Bool.and_eq_true] at hpre
      obtain ⟨hx, hxs⟩ := hpre
      unfold relTypeIsNot at hx
      cases hxt : x.index "type" with
      | error e => rw [hxt] at hx; simp at hx
      | ok t =>
          rw [hxt] at hx
          simp only [Bool.not_eq_true'] at hx
          simp only [List.cons_append, findPublisher, hxt, pyBindOk, hx]
          simp only [Bool.false_eq_true, if_false]
          exact ih hxs

/-- Claim C6: each relationship scan takes the first matching entry in
array order and ignores every later match — stated generally for the
`cover_art` scan of the manga shapers and the `scanlation_group` scan of
the chapter shaper, and instantiated on the shapers themselves with two
matching entries each. -/
theorem relationship_first_match_policy (ty : String) (pre post pre2 post2 : List Json)
    (r t : Json) (gname : String)
    (hpre : pre.all (relTypeIsNot ty) = true)
    (hr : r.index "type" = Except.ok t) (ht : t.isStrEq ty = true)
    (hpre2 : pre2.all (relTypeIsNot "scanlation_group") = true) :
    firstRelOfType ty (pre ++ r :: post) = Except.ok (some r)
    ∧ findPublisher (pre2 ++ relSG gname :: post2) = Except.ok (some (Json.str gname))
    ∧ shapeMangaItem itemTwoCovers = Except.ok itemTwoCoversShaped
    ∧ shapeChapterItem chapterTwoSG = Except.ok chapterTwoSGShaped := by
  refine ⟨?_, ?_, rfl, rfl⟩
  · rw [firstRelOfType_skips ty pre (r :: post) hpre]
    simp only [firstRelOfType, hr, pyBindOk, ht]
    rfl
  · rw [findPublisher_skips pre2 (relSG gname :: post2) hpre2]
    rfl

/-- Witness for `relationship_first_match_policy`: a non-matching entry
before the first match, and a second match after it, for both scans. -/
theorem relationship_first_match_policy_witness :
    firstRelOfType "cover_art" ([relSG "G"] ++ relCover "c9.jpg" :: [relCover "c10.jpg"])
      = Except.ok (some (relCover "c9.jpg"))
    ∧ findPublisher ([relCover "c1.jpg"] ++ relSG "G1" :: [relSG "G2"])
      = Except.ok (some (Json.str "G1"))
    ∧ shapeMangaItem itemTwoCovers = Except.ok itemTwoCoversShaped
    ∧ shapeChapterItem chapterTwoSG = Except.ok chapterTwoSGShaped :=
  relationship_first_match_policy "cover_art" [relSG "G"] [relCover "c10.jpg"]
    [relCover "c1.jpg"] [relSG "G2"] (relCover "c9.jpg") (Json.str "cover_art") "G1"
    rfl rfl rfl rfl
